import Mathlib

/-!
Verification of the go-web toolkit: a shallow embedding of its
template-rendering engine (renderer with live reload), its ETag-caching
file store, and its redirect helper, with theorems checking the
specification's claims against these definitions.

Conventions of the embedding:
- Go strings are Lean `String`s; the sources only ever index ASCII paths,
  so byte indexing coincides with character indexing.
- `time.Time` values are modelled as `Int` timestamps; `time.Time.Equal`
  is integer equality.
- Go maps are modelled as functions `String → Option α`; map assignment
  is pointwise override.
- The code runs in a single-threaded model: mutex lock/unlock pairs
  protecting a read or a write collapse to the plain read or write.
- File handles are modelled with their content available as a pure byte
  list; reads and seeks on an opened handle succeed deterministically.
-/

namespace GoWeb

/-! ## Path handling: `ext2` and `isText` (src/error.go) -/

/-- `os.IsPathSeparator` on a Unix target: only `/` separates. -/
def isPathSeparator (c : Char) : Bool := c = '/'

/-- Inner loop of `ext2`: scan left from index `j` for a dot, stopping at a
path separator or the front of the string, returning the dot's index. -/
def ext2Inner (s : List Char) : Nat → Option Nat
  | 0 =>
    let c := s.getD 0 ' '
    if isPathSeparator c then none
    else if c = '.' then some 0
    else none
  | Nat.succ j' =>
    let c := s.getD (Nat.succ j') ' '
    if isPathSeparator c then none
    else if c = '.' then some (Nat.succ j')
    else ext2Inner s j'

/-- Outer loop of `ext2`: scan left from index `i` for a dot; on finding one
at `i`, run the inner scan from `i - 1`; if the inner scan finds a second
dot at `j`, the result is the span `[j, i)`; otherwise keep scanning left
until a path separator or the front of the string. -/
def ext2Outer (s : List Char) : Nat → Option (Nat × Nat)
  | 0 =>
    -- Index 0 is examined by the Go loop, but a dot there has no room for a
    -- second dot to its left (the inner scan from index -1 never runs), so
    -- the loop always falls through to the empty result from index 0.
    none
  | Nat.succ i' =>
    let i := Nat.succ i'
    let c := s.getD i ' '
    if isPathSeparator c then none
    else
      let hit : Option Nat := if c = '.' then ext2Inner s i' else none
      match hit with
      | some j => some (j, i)
      | none => ext2Outer s i'

/-- `ext2` returns the path's second extension: the substring between the
second-to-last and the last dot of the final path element, including the
left dot and excluding the right one; empty when the final element has
fewer than two dots. Embedded from `ext2` in src/error.go. -/
def ext2 (path : String) : String :=
  match path.data with
  | [] => ""
  | _ :: _ =>
    let s := path.data
    match ext2Outer s (s.length - 1) with
    | some (j, i) => String.mk ((s.drop j).take (i - j))
    | none => ""

/-- `isText` routes a filename to the text-template flavor exactly when its
second extension is `.text`. Embedded from `isText` in src/error.go. -/
def isText (filename : String) : Bool := ext2 filename = ".text"

/-! ## HTTP errors (src/error.go) -/

/-- The status-code-plus-cause error value. `Internal` is the optional
wrapped underlying cause, modelled by its message. -/
structure HTTPError where
  statusCode : Nat
  internal : Option String
deriving DecidableEq

/-- `NewHTTPError` from src/error.go: a bare status-code error. -/
def NewHTTPError (statusCode : Nat) : HTTPError :=
  { statusCode := statusCode, internal := none }

/-- `NewHTTPErrorWithInternalError` from src/error.go: a status-code error
wrapping an underlying cause. -/
def NewHTTPErrorWithInternalError (statusCode : Nat) (err : String) : HTTPError :=
  { statusCode := statusCode, internal := some err }

/-- `http.StatusNotFound`. -/
def statusNotFound : Nat := 404

/-- `http.StatusInternalServerError`. -/
def statusInternalServerError : Nat := 500

/-! ## FileStore (src/filestore.go) -/

/-- The result of `Stat` on an opened file: size, modification time,
directory flag and base name. -/
structure FileInfo where
  size : Nat
  modTime : Int
  isDir : Bool
  name : String
deriving DecidableEq

/-- An opened file handle: its `Stat` outcome, its byte content, and
whether the handle is natively seekable (`io.ReadSeeker`). -/
structure File where
  statResult : Except String FileInfo
  content : List Nat
  seekable : Bool

/-- The outcome of `fsys.Open`: success, a not-exist error, or any other
error. -/
inductive OpenResult where
  | ok (file : File)
  | errNotExist
  | errOther (err : String)

/-- The `fs.FS` abstraction, reduced to what `SendFile` consumes: open by
path. -/
def FS := String → OpenResult

/-- One ETag cache entry: the modification time it was computed from and
the tag string. Embedded from `etagInfo` in src/filestore.go. -/
structure EtagInfo where
  modTime : Int
  tag : String
deriving DecidableEq

/-- `FileStore` from src/filestore.go: the backing file system and the
ETag cache map (`etagsMutex` collapses in the single-threaded model). -/
structure FileStore where
  fsys : FS
  etags : String → Option EtagInfo

/-- `NewFileStore`: empty cache over the given file system. -/
def NewFileStore (fsys : FS) : FileStore :=
  { fsys := fsys, etags := fun _ => none }

/-- The stored tag: the hex-encoded digest wrapped in double quotes.
`sha1hex` stands for `hex.EncodeToString(sha1-digest(content))`, an
opaque-to-us external function of the content bytes. -/
def mkTag (sha1hex : List Nat → String) (content : List Nat) : String :=
  "\"" ++ sha1hex content ++ "\""

/-- The observable outcome of one `SendFile` call: the returned error, the
ETag header value set on the response (if reached), whether the content
was hashed during the call, and whether `http.ServeContent` was reached. -/
structure SendFileResult where
  error : Option HTTPError
  etagHeader : Option String
  hashed : Bool
  served : Bool
deriving DecidableEq

/-- `FileStore.SendFile` from src/filestore.go, step for step. The
non-seekable slow path reads the whole content into memory, so in the
model both paths expose the same byte content to the hasher; reads and
seeks on an opened handle succeed (see the file-header conventions). The
call returns its observable outcome paired with the post-call store. -/
def FileStore.SendFile (sha1hex : List Nat → String) (store : FileStore)
    (filename : String) : SendFileResult × FileStore :=
  match store.fsys filename with
  | .errNotExist =>
    ({ error := some (NewHTTPError statusNotFound),
       etagHeader := none, hashed := false, served := false }, store)
  | .errOther err =>
    ({ error := some (NewHTTPErrorWithInternalError statusNotFound err),
       etagHeader := none, hashed := false, served := false }, store)
  | .ok file =>
    match file.statResult with
    | .error err =>
      ({ error := some (NewHTTPErrorWithInternalError statusInternalServerError err),
         etagHeader := none, hashed := false, served := false }, store)
    | .ok info =>
      if info.isDir then
        ({ error := some (NewHTTPError statusNotFound),
           etagHeader := none, hashed := false, served := false }, store)
      else
        -- tagInfo, ok := store.etags[filename]
        -- if !ok || !tagInfo.ModTime.Equal(info.ModTime()) then recompute
        let cached := store.etags filename
        let useCached : Bool :=
          match cached with
          | none => false
          | some tagInfo => tagInfo.modTime = info.modTime
        if useCached then
          ({ error := none, etagHeader := Option.map EtagInfo.tag cached,
             hashed := false, served := true }, store)
        else
          let newInfo : EtagInfo :=
            { modTime := info.modTime, tag := mkTag sha1hex file.content }
          ({ error := none, etagHeader := some newInfo.tag,
             hashed := true, served := true },
           { store with
              etags := fun k => if k = filename then some newInfo else store.etags k })

/-! ### SendFile step lemmas -/

/-- Open fails with not-exist: a bare 404 is returned and nothing else
happens. -/
theorem sendFile_open_notExist (sha1hex : List Nat → String) (store : FileStore)
    (filename : String) (h : store.fsys filename = OpenResult.errNotExist) :
    FileStore.SendFile sha1hex store filename =
      ({ error := some (NewHTTPError statusNotFound),
         etagHeader := none, hashed := false, served := false }, store) := by
  simp only [FileStore.SendFile, h]

/-- Open fails otherwise: a 404 wrapping the cause is returned. -/
theorem sendFile_open_other (sha1hex : List Nat → String) (store : FileStore)
    (filename err : String) (h : store.fsys filename = OpenResult.errOther err) :
    FileStore.SendFile sha1hex store filename =
      ({ error := some (NewHTTPErrorWithInternalError statusNotFound err),
         etagHeader := none, hashed := false, served := false }, store) := by
  simp only [FileStore.SendFile, h]

/-- Cache hit: an entry exists and its stored modification time equals the
current one; the cached tag is served and the store is untouched. -/
theorem sendFile_cache_hit (sha1hex : List Nat → String) (store : FileStore)
    (filename : String) (file : File) (info : FileInfo) (tagInfo : EtagInfo)
    (hopen : store.fsys filename = OpenResult.ok file)
    (hstat : file.statResult = Except.ok info)
    (hdir : info.isDir = false)
    (hcache : store.etags filename = some tagInfo)
    (htime : tagInfo.modTime = info.modTime) :
    FileStore.SendFile sha1hex store filename =
      ({ error := none, etagHeader := some tagInfo.tag,
         hashed := false, served := true }, store) := by
  simp only [FileStore.SendFile, hopen, hstat, hdir, hcache, htime]
  simp

/-- Cache miss (absent entry, or stale modification time): the content is
hashed, the fresh tag is served, and the cache entry for this path is
replaced by the fresh (modTime, tag) pair. -/
theorem sendFile_cache_miss (sha1hex : List Nat → String) (store : FileStore)
    (filename : String) (file : File) (info : FileInfo)
    (hopen : store.fsys filename = OpenResult.ok file)
    (hstat : file.statResult = Except.ok info)
    (hdir : info.isDir = false)
    (hmiss : ∀ tagInfo, store.etags filename = some tagInfo →
      tagInfo.modTime ≠ info.modTime) :
    FileStore.SendFile sha1hex store filename =
      ({ error := none,
         etagHeader := some (mkTag sha1hex file.content),
         hashed := true, served := true },
       { store with
          etags := fun k =>
            if k = filename then
              some { modTime := info.modTime, tag := mkTag sha1hex file.content }
            else store.etags k }) := by
  simp only [FileStore.SendFile, hopen, hstat, hdir]
  cases hc : store.etags filename with
  | none => simp
  | some tagInfo => simp [hmiss tagInfo hc]

/-! ### Concrete fixtures used by witnesses and counterexamples -/

/-- A stand-in digest function for concrete instantiations: the theorems
hold for every digest function, so any concrete one exercises them. -/
def wSha1 : List Nat → String := fun bs => toString bs.length

/-- A concrete regular-file stat result. -/
def wFileInfo : FileInfo :=
  { size := 2, modTime := 5, isDir := false, name := "f.html" }

/-- A concrete opened file: two bytes, seekable, stat succeeds. -/
def wFile : File :=
  { statResult := Except.ok wFileInfo, content := [104, 105], seekable := true }

/-- A file system where every path opens to `wFile`. -/
def wFS : FS := fun _ => OpenResult.ok wFile

/-- A fresh store over `wFS` with an empty ETag cache. -/
def wStore : FileStore := NewFileStore wFS

/-- A file system where one path is missing and every other open fails
with a non-not-exist error. -/
def C3fs : FS := fun s =>
  if s = "missing.html" then OpenResult.errNotExist
  else OpenResult.errOther "permission denied"

/-- A fresh store over `C3fs`. -/
def C3store : FileStore := NewFileStore C3fs

/-- C1: serving the same unmodified file twice yields the identical ETag
header on both calls, the second call does no hashing, and (when the
cache starts without an entry for the file) the hash is computed on the
first call. -/
theorem C1_sendFile_twice_same_etag (sha1hex : List Nat → String) (store : FileStore)
    (filename : String) (file : File) (info : FileInfo)
    (hopen : store.fsys filename = OpenResult.ok file)
    (hstat : file.statResult = Except.ok info)
    (hdir : info.isDir = false) :
    (FileStore.SendFile sha1hex store filename).1.etagHeader =
      (FileStore.SendFile sha1hex
        (FileStore.SendFile sha1hex store filename).2 filename).1.etagHeader ∧
    ((FileStore.SendFile sha1hex store filename).1.etagHeader).isSome = true ∧
    (FileStore.SendFile sha1hex
      (FileStore.SendFile sha1hex store filename).2 filename).1.hashed = false ∧
    (store.etags filename = none →
      (FileStore.SendFile sha1hex store filename).1.hashed = true) := by
  cases hc : store.etags filename with
  | none =>
    have h1 := sendFile_cache_miss sha1hex store filename file info hopen hstat hdir
      (by intro t ht; rw [hc] at ht; cases ht)
    rw [h1]
    have h2 := sendFile_cache_hit sha1hex
      { store with
         etags := fun k =>
           if k = filename then
             some { modTime := info.modTime, tag := mkTag sha1hex file.content }
           else store.etags k }
      filename file info { modTime := info.modTime, tag := mkTag sha1hex file.content }
      hopen hstat hdir (by simp) rfl
    rw [h2]
    simp
  | some t =>
    by_cases ht : t.modTime = info.modTime
    · have h1 := sendFile_cache_hit sha1hex store filename file info t hopen hstat hdir hc ht
      simp only [h1]
      simp [hc]
    · have h1 := sendFile_cache_miss sha1hex store filename file info hopen hstat hdir
        (by intro t' ht'; rw [hc] at ht'; cases ht'; exact ht)
      rw [h1]
      have h2 := sendFile_cache_hit sha1hex
        { store with
           etags := fun k =>
             if k = filename then
               some { modTime := info.modTime, tag := mkTag sha1hex file.content }
             else store.etags k }
        filename file info { modTime := info.modTime, tag := mkTag sha1hex file.content }
        hopen hstat hdir (by simp) rfl
      rw [h2]
      simp [hc]

/-- C1 witness at a concrete store, file and digest function. -/
theorem C1_sendFile_twice_same_etag_witness :
    (FileStore.SendFile wSha1 wStore "f.html").1.etagHeader =
      (FileStore.SendFile wSha1
        (FileStore.SendFile wSha1 wStore "f.html").2 "f.html").1.etagHeader ∧
    ((FileStore.SendFile wSha1 wStore "f.html").1.etagHeader).isSome = true ∧
    (FileStore.SendFile wSha1
      (FileStore.SendFile wSha1 wStore "f.html").2 "f.html").1.hashed = false ∧
    (FileStore.SendFile wSha1 wStore "f.html").1.hashed = true := by
  have h := C1_sendFile_twice_same_etag wSha1 wStore "f.html" wFile wFileInfo rfl rfl rfl
  exact ⟨h.1, h.2.1, h.2.2.1, h.2.2.2 rfl⟩

/-- C3 counterexample: when open fails with a non-not-exist cause, the
returned error carries status 404 wrapping the cause — not the 500
InternalError the claim states. -/
theorem C3_counterexample :
    C3store.fsys "locked.html" = OpenResult.errOther "permission denied" ∧
    (FileStore.SendFile wSha1 C3store "locked.html").1.error =
      some { statusCode := 404, internal := some "permission denied" } ∧
    (FileStore.SendFile wSha1 C3store "locked.html").1.error ≠
      some { statusCode := 500, internal := some "permission denied" } := by
  refine ⟨rfl, by decide, by decide⟩

/-- C3 (amended): a not-exist open failure returns a bare NotFound (404)
error; any other open failure returns an error that also carries status
NotFound (404), wrapping the underlying cause (not InternalError 500). -/
theorem C3_open_failure_statuses (sha1hex : List Nat → String) (store : FileStore)
    (filename : String) :
    (store.fsys filename = OpenResult.errNotExist →
      (FileStore.SendFile sha1hex store filename).1.error =
        some (NewHTTPError statusNotFound)) ∧
    (∀ err, store.fsys filename = OpenResult.errOther err →
      (FileStore.SendFile sha1hex store filename).1.error =
        some (NewHTTPErrorWithInternalError statusNotFound err)) := by
  constructor
  · intro h
    rw [sendFile_open_notExist sha1hex store filename h]
  · intro err h
    rw [sendFile_open_other sha1hex store filename err h]

/-- C3 witness: both open-failure branches at concrete inputs. -/
theorem C3_open_failure_statuses_witness :
    (FileStore.SendFile wSha1 C3store "missing.html").1.error =
      some (NewHTTPError statusNotFound) ∧
    (FileStore.SendFile wSha1 C3store "locked.html").1.error =
      some (NewHTTPErrorWithInternalError statusNotFound "permission denied") :=
  ⟨(C3_open_failure_statuses wSha1 C3store "missing.html").1 rfl,
   (C3_open_failure_statuses wSha1 C3store "locked.html").2 "permission denied" rfl⟩

/-- C6: on a successful serve, the cached entry is reused without
recomputation iff its stored modification time equals the file's current
one; reuse leaves the store untouched and serves the stored tag; a miss
(absent or stale entry) hashes and replaces exactly this path's entry
with the fresh (modTime, tag) pair. -/
theorem C6_etag_cache_invariant (sha1hex : List Nat → String) (store : FileStore)
    (filename : String) (file : File) (info : FileInfo)
    (hopen : store.fsys filename = OpenResult.ok file)
    (hstat : file.statResult = Except.ok info)
    (hdir : info.isDir = false) :
    ((FileStore.SendFile sha1hex store filename).1.hashed = false ↔
      ∃ tagInfo, store.etags filename = some tagInfo ∧
        tagInfo.modTime = info.modTime) ∧
    ((FileStore.SendFile sha1hex store filename).1.hashed = false →
      (FileStore.SendFile sha1hex store filename).2 = store ∧
      (FileStore.SendFile sha1hex store filename).1.etagHeader =
        Option.map EtagInfo.tag (store.etags filename)) ∧
    ((FileStore.SendFile sha1hex store filename).1.hashed = true →
      (FileStore.SendFile sha1hex store filename).2.etags filename =
        some { modTime := info.modTime, tag := mkTag sha1hex file.content } ∧
      ∀ k, k ≠ filename →
        (FileStore.SendFile sha1hex store filename).2.etags k = store.etags k) := by
  cases hc : store.etags filename with
  | none =>
    rw [sendFile_cache_miss sha1hex store filename file info hopen hstat hdir
      (by intro t ht; rw [hc] at ht; cases ht)]
    refine ⟨by simp [hc], by simp, ?_⟩
    intro _
    refine ⟨by simp, ?_⟩
    intro k hk
    simp [hk]
  | some t =>
    by_cases ht : t.modTime = info.modTime
    · rw [sendFile_cache_hit sha1hex store filename file info t hopen hstat hdir hc ht]
      exact ⟨by simp [hc, ht], by simp [hc], by simp⟩
    · rw [sendFile_cache_miss sha1hex store filename file info hopen hstat hdir
        (by intro t' ht'; rw [hc] at ht'; cases ht'; exact ht)]
      refine ⟨by simp [hc, ht], by simp, ?_⟩
      intro _
      refine ⟨by simp, ?_⟩
      intro k hk
      simp [hk]

/-- C6 witness at a concrete store with an empty cache: the miss branch
fires, hashes, and installs the fresh entry while other keys are
untouched. -/
theorem C6_etag_cache_invariant_witness :
    (FileStore.SendFile wSha1 wStore "f.html").1.hashed = true ∧
    (FileStore.SendFile wSha1 wStore "f.html").2.etags "f.html" =
      some { modTime := wFileInfo.modTime, tag := mkTag wSha1 wFile.content } ∧
    (FileStore.SendFile wSha1 wStore "f.html").2.etags "other.html" =
      wStore.etags "other.html" := by
  have h := C6_etag_cache_invariant wSha1 wStore "f.html" wFile wFileInfo rfl rfl rfl
  have hh : (FileStore.SendFile wSha1 wStore "f.html").1.hashed = true := by
    cases hb : (FileStore.SendFile wSha1 wStore "f.html").1.hashed with
    | false =>
      rcases h.1.mp hb with ⟨t, ht, _⟩
      simp [wStore, NewFileStore] at ht
    | true => rfl
  have h3 := h.2.2 hh
  exact ⟨hh, h3.1, h3.2 "other.html" (by decide)⟩

/-- C4: the second-extension function satisfies the four documented test
cases: `ext2 "filename.a" = ""`, `ext2 "filename.a.b" = ".a"`,
`ext2 "filename.a.b.c" = ".b"`, and `ext2 "/dir.a/file.b" = ""`; dots in
directory segments never contribute. -/
theorem C4_ext2_test_cases :
    ext2 "filename.a" = "" ∧
    ext2 "filename.a.b" = ".a" ∧
    ext2 "filename.a.b.c" = ".b" ∧
    ext2 "/dir.a/file.b" = "" := by
  refine ⟨?_, ?_, ?_, ?_⟩ <;> decide

/-! ## Renderer (src/error.go) -/

/-- `Renderer` from src/error.go: the watched directory plus, per flavor,
the pristine base tree (never executed, safe for re-parsing) and the
executing tree (a clone served to `Render`). The template trees are kept
abstract: `T` is the text-template tree type, `H` the HTML one. -/
structure Renderer (T H : Type) where
  directory : String
  textbase : T
  texttemplates : T
  htmlbase : H
  htmltemplates : H

/-- `Renderer.Render` from src/error.go: route by `isText` and execute
against that flavor's executing tree. `execText`/`execHtml` stand for
`ExecuteTemplate` of the text and HTML template packages; `D` is the data
type, `R` the execution outcome (output or error). -/
def Renderer.Render {T H D R : Type} (execText : T → String → D → R)
    (execHtml : H → String → D → R) (r : Renderer T H) (name : String)
    (data : D) : R :=
  if isText name then execText r.texttemplates name data
  else execHtml r.htmltemplates name data

/-- A filesystem notification event: the written path and the operation
bitmask. -/
structure FsnotifyEvent where
  name : String
  op : Nat

/-- The `fsnotify.Write` operation bit. -/
def fsnotifyWrite : Nat := 2

/-- One iteration of the watcher goroutine's event handling from
src/error.go (`WatchTemplateDirectory`'s loop body for an event): on a
write event, re-parse the written file against its flavor's base tree; on
success install the new base and a fresh clone as the executing tree; on
failure only log, leaving every field unchanged. `parseText base name`
stands for `base.ParseFiles(name)` and `cloneText` for
`texttemplate.Must((·).Clone())`; likewise for HTML. Returns the
post-event renderer and the error that was logged, if any. -/
def Renderer.handleEvent {T H E : Type}
    (parseText : T → String → Except E T) (cloneText : T → T)
    (parseHtml : H → String → Except E H) (cloneHtml : H → H)
    (r : Renderer T H) (event : FsnotifyEvent) : Renderer T H × Option E :=
  if event.op &&& fsnotifyWrite ≠ 0 then
    if isText event.name then
      match parseText r.textbase event.name with
      | .ok updated =>
        ({ r with textbase := updated, texttemplates := cloneText updated }, none)
      | .error e => (r, some e)
    else
      match parseHtml r.htmlbase event.name with
      | .ok updated =>
        ({ r with htmlbase := updated, htmltemplates := cloneHtml updated }, none)
      | .error e => (r, some e)
  else (r, none)

/-! ### Renderer fixtures for witnesses -/

/-- Concrete text-flavor `ExecuteTemplate` stand-in over string trees. -/
def wExecText : String → String → Nat → String :=
  fun t n d => "text:" ++ t ++ ":" ++ n ++ ":" ++ toString d

/-- Concrete HTML-flavor `ExecuteTemplate` stand-in over string trees. -/
def wExecHtml : String → String → Nat → String :=
  fun t n d => "html:" ++ t ++ ":" ++ n ++ ":" ++ toString d

/-- A concrete renderer whose four trees are distinct string labels. -/
def wRenderer : Renderer String String :=
  { directory := "templates", textbase := "tb", texttemplates := "tt",
    htmlbase := "hb", htmltemplates := "ht" }

/-- A parse stand-in that always fails. -/
def wParseFail : String → String → Except String String :=
  fun _ _ => Except.error "template: redefinition of template"

/-- C5: `Render` executes against the text-flavor group exactly when the
name's second extension is `.text`, and against the HTML-flavor group
otherwise. -/
theorem C5_render_flavor_routing {T H D R : Type}
    (execText : T → String → D → R) (execHtml : H → String → D → R)
    (r : Renderer T H) (name : String) (data : D) :
    (ext2 name = ".text" →
      Renderer.Render execText execHtml r name data =
        execText r.texttemplates name data) ∧
    (ext2 name ≠ ".text" →
      Renderer.Render execText execHtml r name data =
        execHtml r.htmltemplates name data) := by
  constructor
  · intro h
    simp [Renderer.Render, isText, h]
  · intro h
    simp [Renderer.Render, isText, h]

/-- C5 witness: a `.text`-second-extension name runs the text group, a
plain `.html` name runs the HTML group. -/
theorem C5_render_flavor_routing_witness :
    Renderer.Render wExecText wExecHtml wRenderer "msg.text.tmpl" 7 =
      wExecText wRenderer.texttemplates "msg.text.tmpl" 7 ∧
    Renderer.Render wExecText wExecHtml wRenderer "page.html" 7 =
      wExecHtml wRenderer.htmltemplates "page.html" 7 :=
  ⟨(C5_render_flavor_routing wExecText wExecHtml wRenderer "msg.text.tmpl" 7).1
     (by decide),
   (C5_render_flavor_routing wExecText wExecHtml wRenderer "page.html" 7).2
     (by decide)⟩

/-- C7: when a write-triggered reload fails to parse, the handler leaves
the renderer — all four template fields and the directory — completely
unchanged and only reports the error; `Render` on the post-event renderer
coincides with `Render` on the pre-event one. -/
theorem C7_failed_reload_keeps_snapshot {T H E D R : Type}
    (parseText : T → String → Except E T) (cloneText : T → T)
    (parseHtml : H → String → Except E H) (cloneHtml : H → H)
    (execText : T → String → D → R) (execHtml : H → String → D → R)
    (r : Renderer T H) (event : FsnotifyEvent) (e : E)
    (name : String) (data : D)
    (hwrite : event.op &&& fsnotifyWrite ≠ 0)
    (hfail : (isText event.name = true ∧
        parseText r.textbase event.name = Except.error e) ∨
      (isText event.name = false ∧
        parseHtml r.htmlbase event.name = Except.error e)) :
    Renderer.handleEvent parseText cloneText parseHtml cloneHtml r event =
      (r, some e) ∧
    Renderer.Render execText execHtml
      (Renderer.handleEvent parseText cloneText parseHtml cloneHtml r event).1
      name data =
    Renderer.Render execText execHtml r name data := by
  have hmain :
      Renderer.handleEvent parseText cloneText parseHtml cloneHtml r event =
        (r, some e) := by
    rcases hfail with ⟨ht, hp⟩ | ⟨ht, hp⟩ <;>
      simp [Renderer.handleEvent, hwrite, ht, hp]
  exact ⟨hmain, by rw [hmain]⟩

/-- C7 witness: a failing parse of a written text-flavor file at a
concrete renderer leaves it intact. -/
theorem C7_failed_reload_keeps_snapshot_witness :
    Renderer.handleEvent wParseFail id (fun h _ => Except.ok h) id wRenderer
      { name := "msg.text.tmpl", op := 2 } =
      (wRenderer, some "template: redefinition of template") ∧
    Renderer.Render wExecText wExecHtml
      (Renderer.handleEvent wParseFail id (fun h _ => Except.ok h) id wRenderer
        { name := "msg.text.tmpl", op := 2 }).1 "page.html" 7 =
    Renderer.Render wExecText wExecHtml wRenderer "page.html" 7 :=
  C7_failed_reload_keeps_snapshot wParseFail id (fun h _ => Except.ok h) id
    wExecText wExecHtml wRenderer { name := "msg.text.tmpl", op := 2 }
    "template: redefinition of template" "page.html" 7 (by decide)
    (Or.inl ⟨by decide, rfl⟩)

/-! ### Construction: readFiles / NewRenderer / WatchTemplateDirectory -/

/-- A directory entry as returned by `fs.ReadDir`: name and directory
flag. -/
structure DirEntry where
  name : String
  isDir : Bool

/-- `path.Join` for the one shape used here: a directory joined with an
entry's base name. Go's `path.Join` additionally cleans the result; for
the joins performed by `readFiles` (a nonempty base name appended last)
cleaning never alters the final path element, which is all that
`isText`/`ext2` ever inspect. -/
def pathJoin (directory name : String) : String :=
  if directory = "" then name else directory ++ "/" ++ name

/-- `readFiles` from src/error.go: list the directory, skip
subdirectories, and split the remaining filenames by flavor using
`isText`. The `fs.ReadDir` call enters the model through its outcome
`readDirResult`. -/
def readFiles (readDirResult : Except String (List DirEntry))
    (directory : String) : Except String (List String × List String) :=
  match readDirResult with
  | .error e => .error e
  | .ok infos =>
    .ok (infos.foldl
      (fun acc info =>
        if info.isDir then acc
        else
          let filename := pathJoin directory info.name
          if isText filename then (acc.1 ++ [filename], acc.2)
          else (acc.1, acc.2 ++ [filename]))
      ([], []))

/-- `RendererOptions` from src/error.go. `fsysProvided` models whether
`options.Fsys` is non-nil; the file-system value itself enters the model
through `readDirResult` and the parse functions, and the `Functions` map
through the `emptyText`/`emptyHtml` base trees it is installed into. -/
structure RendererOptions where
  fsysProvided : Bool
  directory : String

/-- The effective directory argument: `"."` when the option is empty. -/
def rendererDirectoryArg (options : RendererOptions) : String :=
  if options.directory = "" then "." else options.directory

/-- The `directory` field stored on the renderer: set only when
`options.Fsys` was nil, left at its zero value `""` otherwise. -/
def rendererDirField (options : RendererOptions) : String :=
  if options.fsysProvided then "" else rendererDirectoryArg options

/-- `NewRenderer` from src/error.go. A directory-read failure is logged
and deliberately not returned ("Do not return. The code below creates
empty templates."), so construction proceeds with empty file lists. Each
nonempty flavor group is parsed under `template.Must`, whose panic on a
parse error is modelled as `Except.error`; `Must(Clone())` of a
never-executed base tree cannot fail and is modelled by the total
`cloneText`/`cloneHtml`. `emptyText`/`emptyHtml` stand for
`template.New("").Funcs(functions)`. -/
def NewRenderer {T H : Type}
    (emptyText : T) (parseTextFS : T → List String → Except String T)
    (cloneText : T → T)
    (emptyHtml : H) (parseHtmlFS : H → List String → Except String H)
    (cloneHtml : H → H)
    (readDirResult : Except String (List DirEntry))
    (options : RendererOptions) : Except String (Renderer T H) :=
  let files : List String × List String :=
    match readFiles readDirResult (rendererDirectoryArg options) with
    | .error _ => ([], [])
    | .ok p => p
  match (if files.1.length ≠ 0 then parseTextFS emptyText files.1
         else Except.ok emptyText) with
  | .error e => .error e
  | .ok textbase =>
    match (if files.2.length ≠ 0 then parseHtmlFS emptyHtml files.2
           else Except.ok emptyHtml) with
    | .error e => .error e
    | .ok htmlbase =>
      .ok { directory := rendererDirField options,
            textbase := textbase, texttemplates := cloneText textbase,
            htmlbase := htmlbase, htmltemplates := cloneHtml htmlbase }

/-- The guard sequence of `Renderer.WatchTemplateDirectory` from
src/error.go, up to starting the event goroutine: whether a watcher is
created and the watch loop starts. `newWatcherOk`/`addOk` model the
fallible external `fsnotify.NewWatcher`/`watcher.Add` calls. -/
inductive WatchOutcome where
  | noDirectory
  | createFailed
  | addFailed
  | watching
deriving DecidableEq

/-- `Renderer.WatchTemplateDirectory`'s guard sequence: an empty
`directory` field returns immediately before any watcher is created. -/
def Renderer.WatchTemplateDirectory {T H : Type} (newWatcherOk addOk : Bool)
    (r : Renderer T H) : WatchOutcome :=
  if r.directory = "" then WatchOutcome.noDirectory
  else if !newWatcherOk then WatchOutcome.createFailed
  else if !addOk then WatchOutcome.addFailed
  else WatchOutcome.watching

/-! ### Construction fixtures for witnesses and counterexamples -/

/-- A parse stand-in that always succeeds and returns the base tree. -/
def C8parseOk : String → List String → Except String String :=
  fun base _ => Except.ok base

/-- A parse stand-in over file lists that always fails, as a name
collision across source files would. -/
def C8parseFail : String → List String → Except String String :=
  fun _ _ => Except.error "template: redefinition of template"

/-- A successful directory listing with one file of each flavor. -/
def C8readDirOk : Except String (List DirEntry) :=
  Except.ok [{ name := "msg.text.tmpl", isDir := false },
             { name := "page.html", isDir := false }]

/-- Options with the default (nil) file system and a named directory. -/
def C8options : RendererOptions :=
  { fsysProvided := false, directory := "templates" }

/-- Options carrying an explicit (non-nil) file system. -/
def C10options : RendererOptions :=
  { fsysProvided := true, directory := "templates" }

/-- The renderer produced under `C10options` with all-succeeding parses. -/
def C10renderer : Renderer String String :=
  { directory := "", textbase := "eT", texttemplates := "eT",
    htmlbase := "eH", htmltemplates := "eH" }

/-- C8 counterexample: with the template directory unreadable
("permission denied"), NewRenderer does not surface the failure — it
returns a fully-formed renderer built from empty template sets, exactly
as the source comment "Do not return. The code below creates empty
templates." prescribes. -/
theorem C8_counterexample :
    NewRenderer "eT" C8parseOk id "eH" C8parseOk id
        (Except.error "permission denied") C8options =
      Except.ok { directory := "templates", textbase := "eT",
                  texttemplates := "eT", htmlbase := "eH",
                  htmltemplates := "eH" } := rfl

/-- C8 (amended): a failure to read the template directory is logged and
non-fatal — NewRenderer still returns a renderer, built from empty
template sets; what is fatal to construction is a parse failure (such as
a template name collision) in a nonempty flavor group, which aborts via
`Must`'s panic. -/
theorem C8_initial_build_outcomes {T H : Type}
    (emptyText : T) (parseTextFS : T → List String → Except String T)
    (cloneText : T → T)
    (emptyHtml : H) (parseHtmlFS : H → List String → Except String H)
    (cloneHtml : H → H)
    (readDirResult : Except String (List DirEntry))
    (options : RendererOptions) :
    (∀ e, readDirResult = Except.error e →
      NewRenderer emptyText parseTextFS cloneText emptyHtml parseHtmlFS
          cloneHtml readDirResult options =
        Except.ok { directory := rendererDirField options,
                    textbase := emptyText,
                    texttemplates := cloneText emptyText,
                    htmlbase := emptyHtml,
                    htmltemplates := cloneHtml emptyHtml }) ∧
    (∀ textfiles htmlfiles e,
      readFiles readDirResult (rendererDirectoryArg options) =
        Except.ok (textfiles, htmlfiles) →
      textfiles ≠ [] →
      parseTextFS emptyText textfiles = Except.error e →
      NewRenderer emptyText parseTextFS cloneText emptyHtml parseHtmlFS
          cloneHtml readDirResult options = Except.error e) ∧
    (∀ textfiles htmlfiles textbase e,
      readFiles readDirResult (rendererDirectoryArg options) =
        Except.ok (textfiles, htmlfiles) →
      (if textfiles.length ≠ 0 then parseTextFS emptyText textfiles
       else Except.ok emptyText) = Except.ok textbase →
      htmlfiles ≠ [] →
      parseHtmlFS emptyHtml htmlfiles = Except.error e →
      NewRenderer emptyText parseTextFS cloneText emptyHtml parseHtmlFS
          cloneHtml readDirResult options = Except.error e) := by
  refine ⟨?_, ?_, ?_⟩
  · intro e he
    simp [NewRenderer, he, readFiles]
  · intro textfiles htmlfiles e hrf hne hp
    have hlen : textfiles.length ≠ 0 := by
      simpa using hne
    simp [NewRenderer, hrf, hlen, hp]
  · intro textfiles htmlfiles textbase e hrf htb hne hp
    have hlen : htmlfiles.length ≠ 0 := by
      simpa using hne
    simp only [NewRenderer, hrf]
    rw [htb]
    simp [hlen, hp]

/-- C8 witness: the three construction outcomes at concrete inputs — an
unreadable directory yields a renderer over empty sets; a failing
text-flavor parse aborts; a failing HTML-flavor parse aborts. -/
theorem C8_initial_build_outcomes_witness :
    NewRenderer "eT" C8parseOk id "eH" C8parseOk id
        (Except.error "permission denied") C8options =
      Except.ok { directory := rendererDirField C8options, textbase := "eT",
                  texttemplates := id "eT", htmlbase := "eH",
                  htmltemplates := id "eH" } ∧
    NewRenderer "eT" C8parseFail id "eH" C8parseOk id C8readDirOk C8options =
      Except.error "template: redefinition of template" ∧
    NewRenderer "eT" C8parseOk id "eH" C8parseFail id C8readDirOk C8options =
      Except.error "template: redefinition of template" :=
  ⟨(C8_initial_build_outcomes "eT" C8parseOk id "eH" C8parseOk id
      (Except.error "permission denied") C8options).1 "permission denied" rfl,
   (C8_initial_build_outcomes "eT" C8parseFail id "eH" C8parseOk id
      C8readDirOk C8options).2.1 ["templates/msg.text.tmpl"]
      ["templates/page.html"] "template: redefinition of template" rfl
      (by simp) rfl,
   (C8_initial_build_outcomes "eT" C8parseOk id "eH" C8parseFail id
      C8readDirOk C8options).2.2 ["templates/msg.text.tmpl"]
      ["templates/page.html"] "eT" "template: redefinition of template" rfl
      rfl (by simp) rfl⟩

/-- Inversion helper: every successfully constructed renderer carries the
directory field `rendererDirField options`. -/
theorem NewRenderer_ok_directory {T H : Type}
    (emptyText : T) (parseTextFS : T → List String → Except String T)
    (cloneText : T → T)
    (emptyHtml : H) (parseHtmlFS : H → List String → Except String H)
    (cloneHtml : H → H)
    (readDirResult : Except String (List DirEntry))
    (options : RendererOptions) (r : Renderer T H)
    (hok : NewRenderer emptyText parseTextFS cloneText emptyHtml parseHtmlFS
        cloneHtml readDirResult options = Except.ok r) :
    r.directory = rendererDirField options := by
  simp only [NewRenderer] at hok
  split at hok
  · cases hok
  · split at hok
    · cases hok
    · cases hok
      rfl

/-- C10: when the options carry an explicit (non-nil) file system, the
constructed renderer's directory field is left empty, and
`WatchTemplateDirectory` returns before creating a watcher — live reload
is silently unavailable. -/
theorem C10_explicit_fsys_disables_watch {T H : Type}
    (emptyText : T) (parseTextFS : T → List String → Except String T)
    (cloneText : T → T)
    (emptyHtml : H) (parseHtmlFS : H → List String → Except String H)
    (cloneHtml : H → H)
    (readDirResult : Except String (List DirEntry))
    (options : RendererOptions) (newWatcherOk addOk : Bool) (r : Renderer T H)
    (hfsys : options.fsysProvided = true)
    (hok : NewRenderer emptyText parseTextFS cloneText emptyHtml parseHtmlFS
        cloneHtml readDirResult options = Except.ok r) :
    r.directory = "" ∧
    Renderer.WatchTemplateDirectory newWatcherOk addOk r =
      WatchOutcome.noDirectory := by
  have hdir : r.directory = "" := by
    rw [NewRenderer_ok_directory emptyText parseTextFS cloneText emptyHtml
      parseHtmlFS cloneHtml readDirResult options r hok]
    simp [rendererDirField, hfsys]
  exact ⟨hdir, by simp [Renderer.WatchTemplateDirectory, hdir]⟩

/-- C10 witness: a concrete construction with an explicit file system and
succeeding parses yields an empty directory field and no watcher. -/
theorem C10_explicit_fsys_disables_watch_witness :
    C10renderer.directory = "" ∧
    Renderer.WatchTemplateDirectory true true C10renderer =
      WatchOutcome.noDirectory :=
  C10_explicit_fsys_disables_watch "eT" C8parseOk id "eH" C8parseOk id
    C8readDirOk C10options true true C10renderer rfl rfl

/-! ## SendRedirect (src/web.go) -/

/-- An effect performed on the response writer. `SendRedirect` only ever
delegates to `http.Redirect`, which writes the Location header and the
redirect status. -/
inductive ResponseAction where
  | redirect (url : String) (statusCode : Int)
deriving DecidableEq

/-- `SendRedirect` from src/web.go: a status code outside [300, 399] is
rejected with an error before anything is written to the response;
otherwise the call delegates to `http.Redirect` and returns nil. The
result is the returned error paired with the response actions
performed. -/
def SendRedirect (statusCode : Int) (url : String) :
    Option String × List ResponseAction :=
  if statusCode < 300 ∨ statusCode > 399 then
    (some ("redirect status code should be in 3xx range, but was " ++
      toString statusCode), [])
  else
    (none, [ResponseAction.redirect url statusCode])

/-- C9: a status code outside the inclusive range [300, 399] is rejected
with an error and nothing is written to the response; a status code
inside the range issues the redirect and returns nil. -/
theorem C9_sendRedirect_range (statusCode : Int) (url : String) :
    (statusCode < 300 ∨ statusCode > 399 →
      ((SendRedirect statusCode url).1).isSome = true ∧
      (SendRedirect statusCode url).2 = []) ∧
    (300 ≤ statusCode ∧ statusCode ≤ 399 →
      SendRedirect statusCode url =
        (none, [ResponseAction.redirect url statusCode])) := by
  constructor
  · intro h
    simp [SendRedirect, h]
  · intro h
    have hn : ¬(statusCode < 300 ∨ statusCode > 399) := by omega
    simp [SendRedirect, hn]

/-- C9 witness: 200 is rejected with no response written; 301 issues the
redirect and returns nil. -/
theorem C9_sendRedirect_range_witness :
    ((SendRedirect 200 "/login").1).isSome = true ∧
    (SendRedirect 200 "/login").2 = [] ∧
    SendRedirect 301 "/login" = (none, [ResponseAction.redirect "/login" 301]) := by
  have h1 := (C9_sendRedirect_range 200 "/login").1 (by decide)
  have h2 := (C9_sendRedirect_range 301 "/login").2 (by decide)
  exact ⟨h1.1, h1.2, h2⟩

end GoWeb
